import Mathlib

/-
Verification of the doukutsu-rs game-engine core (`src/main.rs`): the shared game
state hub, its edge-triggered key derivation, the caret (visual effect) collection,
the story-flag bank, and the keyboard event handlers of `Game`.
-/

namespace DoukutsuRs

/-- Modelled from the spec: the `bitvec` crate's `BitVec` backing the Flag Bank is an
external dependency whose sources are not part of this repository. Spec §3: an ordered,
fixed-capacity, index-addressed set of boolean flags. It is represented as a list of
booleans; a loudly-failing (panicking) access is represented by `none`. -/
abbrev BitVec := List Bool

/-- Modelled from the spec: indexed read of a flag. The `bitvec` crate's index access
panics when the index is out of range, which the embedding renders as `none`. -/
def BitVec.get (v : BitVec) (i : Nat) : Option Bool := v[i]?

/-- Modelled from the spec: indexed write of a flag. The `bitvec` crate's index access
panics when the index is out of range, which the embedding renders as `none`. -/
def BitVec.set (v : BitVec) (i : Nat) (b : Bool) : Option BitVec :=
if i < v.length then some (List.set v i b) else none

/-- Modelled from the spec: `crate::rng::RNG` is not under src/; only its constructor
signature `RNG::new(i32)` is visible at the call sites in `main.rs`. -/
structure RNG where
  seed : Int

/-- Modelled from the spec: `RNG::new(seed)`. -/
def RNG.new (seed : Int) : RNG := ⟨seed⟩

/-- Modelled from the spec: `crate::common::FadeState` is not under src/; `main.rs` only
uses the `Hidden` variant. -/
inductive FadeState where
| Hidden
| Visible

/-- Modelled from the spec: `crate::common::Direction` is not under src/; carets carry a
direction. The variant set is represented by a numeric tag. -/
structure Direction where
  tag : Nat

/-- Modelled from the spec: `crate::caret::CaretType` is not under src/. The variant set
is represented by a numeric tag. -/
structure CaretType where
  tag : Nat

/-- Modelled from the spec: `crate::engine_constants::EngineConstants` is not under src/;
it is carried opaquely except for the authored caret lifetime consulted by `Caret::new`. -/
structure EngineConstants where
  caret_lifetime : Nat

/-- Modelled from the spec: `EngineConstants::defaults()`; the authored lifetime value is
an engineering constant not derivable from the visible sources. -/
def EngineConstants.defaults : EngineConstants := ⟨16⟩

/-- Modelled from the spec: constant patches applied when Cave Story+ data files are
detected; carried as an unspecified transformation of the constants. -/
def EngineConstants.apply_csplus_patches (c : EngineConstants) : EngineConstants := c

/-- Modelled from the spec: `crate::caret::Caret` is not under src/. Spec §3: a
short-lived visual-effect entity with position, type, direction and an internal
animation/age counter, destroyed once its is-dead predicate becomes true. -/
structure Caret where
  x : Int
  y : Int
  ctype : CaretType
  direction : Direction
  counter : Nat
  lifetime : Nat

/-- Modelled from the spec: a caret is dead once its age counter has reached its
authored lifetime. -/
def Caret.is_dead (c : Caret) : Bool := decide (c.lifetime ≤ c.counter)

/-- Modelled from the spec: `Caret::tick(&rng, &constants)` advances the animation/age
counter once; the RNG and constants feed the animation details, not the age. -/
def Caret.tick (c : Caret) (_rng : RNG) (_constants : EngineConstants) : Caret :=
{ c with counter := c.counter + 1 }

/-- Modelled from the spec: `Caret::new(x, y, ctype, direct, &constants)` builds a fresh
caret at the given position with a zero age counter and its authored lifetime. -/
def Caret.new (x y : Int) (ctype : CaretType) (direct : Direction)
(constants : EngineConstants) : Caret :=
⟨x, y, ctype, direct, 0, constants.caret_lifetime⟩

/-- Raw-word bit assignment as generated by the `bitfield!` macro for a single-bit
field at position `n` of a `u16`: the bit is cleared with the complemented mask and the
value is or-ed in. -/
def setBit (bits n : Nat) (value : Bool) : Nat :=
(bits &&& (65535 ^^^ (1 <<< n))) ||| ((if value then 1 else 0) <<< n)

/-- `KeyState(u16)` (main.rs lines 66-78): bitfield over one 16-bit word; `bits` is the
raw word `self.0`, below `2 ^ 16` at every reachable state. -/
structure KeyState where
  bits : Nat

def KeyState.left (k : KeyState) : Bool := k.bits.testBit 0
def KeyState.right (k : KeyState) : Bool := k.bits.testBit 1
def KeyState.up (k : KeyState) : Bool := k.bits.testBit 2
def KeyState.down (k : KeyState) : Bool := k.bits.testBit 3
def KeyState.map (k : KeyState) : Bool := k.bits.testBit 4
def KeyState.jump (k : KeyState) : Bool := k.bits.testBit 5
def KeyState.fire (k : KeyState) : Bool := k.bits.testBit 6
def KeyState.weapon_next (k : KeyState) : Bool := k.bits.testBit 7
def KeyState.weapon_prev (k : KeyState) : Bool := k.bits.testBit 8

def KeyState.set_left (k : KeyState) (value : Bool) : KeyState := ⟨setBit k.bits 0 value⟩
def KeyState.set_right (k : KeyState) (value : Bool) : KeyState := ⟨setBit k.bits 1 value⟩
def KeyState.set_up (k : KeyState) (value : Bool) : KeyState := ⟨setBit k.bits 2 value⟩
def KeyState.set_down (k : KeyState) (value : Bool) : KeyState := ⟨setBit k.bits 3 value⟩
def KeyState.set_map (k : KeyState) (value : Bool) : KeyState := ⟨setBit k.bits 4 value⟩
def KeyState.set_jump (k : KeyState) (value : Bool) : KeyState := ⟨setBit k.bits 5 value⟩
def KeyState.set_fire (k : KeyState) (value : Bool) : KeyState := ⟨setBit k.bits 6 value⟩
def KeyState.set_weapon_next (k : KeyState) (value : Bool) : KeyState := ⟨setBit k.bits 7 value⟩
def KeyState.set_weapon_prev (k : KeyState) (value : Bool) : KeyState := ⟨setBit k.bits 8 value⟩

/-- `ControlFlags(u16)` (main.rs lines 80-86). -/
structure ControlFlags where
  bits : Nat

/-- Modelled from the spec: `crate::texture_set::TextureSet`, constructed from the base
path and otherwise opaque. -/
structure TextureSet where
  base_path : String

/-- Modelled from the spec: `TextureSet::new(base_path)`. -/
def TextureSet.new (base_path : String) : TextureSet := ⟨base_path⟩

/-- Modelled from the spec: `crate::stage::StageData`, carried opaquely. -/
structure StageData where
  tag : Nat

/-- Modelled from the spec: `crate::sound::SoundManager`, carried opaquely. -/
structure SoundManager where
  tag : Nat

/-- Modelled from the spec: `SoundManager::new(ctx)`; the audio context is external. -/
def SoundManager.new : SoundManager := ⟨0⟩

/-- Modelled from the spec: `crate::text_script::TextScriptVM`, carried opaquely here;
only its construction is visible in `main.rs`. -/
structure TextScriptVM where
  tag : Nat

/-- Modelled from the spec: `TextScriptVM::new()`. -/
def TextScriptVM.new : TextScriptVM := ⟨0⟩

/-- Modelled from the spec: a boxed `dyn Scene` trait object, carried opaquely. -/
structure SceneBox where
  tag : Nat

/-- Modelled from the spec: `crate::ui::UI`, carried opaquely. -/
structure UI where
  tag : Nat

/-- Modelled from the spec: `ggez::mint::ColumnMatrix4<f32>` from the graphics backend,
carried opaquely. -/
structure ColumnMatrix4 where
  tag : Nat

/-- `SharedGameState` (main.rs lines 96-116). -/
structure SharedGameState where
  control_flags : ControlFlags
  game_flags : BitVec
  fade_state : FadeState
  game_rng : RNG
  effect_rng : RNG
  carets : List Caret
  key_state : KeyState
  key_trigger : KeyState
  texture_set : TextureSet
  base_path : String
  stages : List StageData
  sound_manager : SoundManager
  constants : EngineConstants
  scale : Float
  canvas_size : Float × Float
  screen_size : Float × Float
  next_scene : Option SceneBox
  textscript_vm : TextScriptVM
  key_old : Nat

/-- `SharedGameState::update_key_trigger` (main.rs lines 119-124). -/
def SharedGameState.update_key_trigger (s : SharedGameState) : SharedGameState :=
let trigger := (s.key_state.bits ^^^ s.key_old) &&& s.key_state.bits
{ s with key_old := s.key_state.bits, key_trigger := ⟨trigger⟩ }

/-- `SharedGameState::tick_carets` (main.rs lines 126-132): tick every caret, then
retain the ones that are not dead. -/
def SharedGameState.tick_carets (s : SharedGameState) : SharedGameState :=
let ticked := s.carets.map (fun c => c.tick s.effect_rng s.constants)
{ s with carets := ticked.filter (fun c => ! c.is_dead) }

/-- `SharedGameState::create_caret` (main.rs lines 134-136). -/
def SharedGameState.create_caret (s : SharedGameState) (x y : Int) (ctype : CaretType)
(direct : Direction) : SharedGameState :=
{ s with carets := s.carets ++ [Caret.new x y ctype direct s.constants] }

/-- `Game` (main.rs lines 88-94). -/
structure Game where
  scene : Option SceneBox
  state : SharedGameState
  ui : UI
  scaled_matrix : ColumnMatrix4
  def_matrix : ColumnMatrix4

/-- `Game::new` (main.rs lines 140-188). The window/filesystem context is replaced by
the values the constructor reads from it: whether Cave Story+ data files were detected,
the clock-derived effect-RNG seed, the constructed `UI`, and the drawable size. -/
def Game.new (csplus : Bool) (effect_seed : Int) (ui : UI)
(screen_size : Float × Float) : Game :=
let scale : Float := 2.0
let canvas_size := (screen_size.1 / scale, screen_size.2 / scale)
let constants :=
  if csplus then EngineConstants.defaults.apply_csplus_patches else EngineConstants.defaults
let base_path := if csplus then "/base/" else "/"
{ scene := none
  scaled_matrix := ⟨0⟩
  ui := ui
  def_matrix := ⟨1⟩
  state :=
  { control_flags := ⟨0⟩
    game_flags := List.replicate 8000 false
    fade_state := FadeState.Hidden
    game_rng := RNG.new 0
    effect_rng := RNG.new effect_seed
    carets := []
    key_state := ⟨0⟩
    key_trigger := ⟨0⟩
    texture_set := TextureSet.new base_path
    base_path := base_path
    stages := []
    sound_manager := SoundManager.new
    constants := constants
    scale := scale
    canvas_size := canvas_size
    screen_size := screen_size
    next_scene := none
    textscript_vm := TextScriptVM.new
    key_old := 0 } }

/-- Modelled from the spec: `ggez::event::KeyCode` (winit) is external. The handlers
match exactly the eight mapped keys and ignore every other key code, so the remaining
codes are collapsed into `Other` with a numeric tag. -/
inductive KeyCode where
| Left
| Right
| Up
| Down
| Z
| X
| A
| S
| Other (tag : Nat)

/-- Modelled from the spec: `ggez::event::KeyMods`, carried opaquely; both handlers
ignore it. -/
structure KeyMods where
  bits : Nat

/-- `Game::key_down_event` (main.rs lines 214-230): auto-repeat events return early,
otherwise the mapped key's bit is set. -/
def Game.key_down_event (g : Game) (key_code : KeyCode) (_key_mod : KeyMods)
(rep : Bool) : Game :=
if rep then g
else
  match key_code with
  | .Left => { g with state := { g.state with key_state := g.state.key_state.set_left true } }
  | .Right => { g with state := { g.state with key_state := g.state.key_state.set_right true } }
  | .Up => { g with state := { g.state with key_state := g.state.key_state.set_up true } }
  | .Down => { g with state := { g.state with key_state := g.state.key_state.set_down true } }
  | .Z => { g with state := { g.state with key_state := g.state.key_state.set_jump true } }
  | .X => { g with state := { g.state with key_state := g.state.key_state.set_fire true } }
  | .A => { g with state := { g.state with key_state := g.state.key_state.set_weapon_prev true } }
  | .S => { g with state := { g.state with key_state := g.state.key_state.set_weapon_next true } }
  | .Other _ => g

/-- `Game::key_up_event` (main.rs lines 233-247): the mapped key's bit is cleared. -/
def Game.key_up_event (g : Game) (key_code : KeyCode) (_key_mod : KeyMods) : Game :=
match key_code with
| .Left => { g with state := { g.state with key_state := g.state.key_state.set_left false } }
| .Right => { g with state := { g.state with key_state := g.state.key_state.set_right false } }
| .Up => { g with state := { g.state with key_state := g.state.key_state.set_up false } }
| .Down => { g with state := { g.state with key_state := g.state.key_state.set_down false } }
| .Z => { g with state := { g.state with key_state := g.state.key_state.set_jump false } }
| .X => { g with state := { g.state with key_state := g.state.key_state.set_fire false } }
| .A => { g with state := { g.state with key_state := g.state.key_state.set_weapon_prev false } }
| .S => { g with state := { g.state with key_state := g.state.key_state.set_weapon_next false } }
| .Other _ => g

/-- The bit position each mapped key code writes, per the two handlers: `Left`→`left`
(bit 0), `Right`→`right` (1), `Up`→`up` (2), `Down`→`down` (3), `Z`→`jump` (5),
`X`→`fire` (6), `A`→`weapon_prev` (8), `S`→`weapon_next` (7); unmapped codes map to
`none`. -/
def mappedBit : KeyCode → Option Nat
| .Left => some 0
| .Right => some 1
| .Up => some 2
| .Down => some 3
| .Z => some 5
| .X => some 6
| .A => some 8
| .S => some 7
| .Other _ => none

/-- Per-frame trigger derivation applied by `update_key_trigger` to one held word and
the previously held word. -/
def triggerStep (held prev : Nat) : Nat := (held ^^^ prev) &&& held

/-- Drive `update_key_trigger` over a sequence of held-key words, one per frame: each
frame stores the held word into `key_state` and then calls `update_key_trigger`,
recording the resulting raw `key_trigger` word. -/
def runTriggers (s : SharedGameState) : List Nat → List Nat
| [] => []
| held :: rest =>
  let s' := SharedGameState.update_key_trigger { s with key_state := ⟨held⟩ }
  s'.key_trigger.bits :: runTriggers s' rest

/-- A concrete freshly-constructed game, used to instantiate hypotheses concretely. -/
def witnessGame : Game := Game.new false 0 ⟨0⟩ (854.0, 480.0)

/-- The shared state of `witnessGame`. -/
def witnessState : SharedGameState := witnessGame.state

/-- The statement of claim C10, per key code: a mapped key's handler writes exactly its
bit (down sets it, up clears it, down-then-up clears it and restores all other bits),
and an unmapped key code leaves `key_state` untouched in both handlers. -/
def keyEventSpec (g : Game) (key_code : KeyCode) (key_mod : KeyMods) : Prop :=
match mappedBit key_code with
| some b =>
    (∀ j, (Game.key_down_event g key_code key_mod false).state.key_state.bits.testBit j
        = if j = b then true else g.state.key_state.bits.testBit j) ∧
    (∀ j, (Game.key_up_event g key_code key_mod).state.key_state.bits.testBit j
        = if j = b then false else g.state.key_state.bits.testBit j) ∧
    (∀ j, (Game.key_up_event (Game.key_down_event g key_code key_mod false) key_code
            key_mod).state.key_state.bits.testBit j
        = if j = b then false else g.state.key_state.bits.testBit j)
| none =>
    (Game.key_down_event g key_code key_mod false).state.key_state = g.state.key_state ∧
    (Game.key_up_event g key_code key_mod).state.key_state = g.state.key_state

lemma setBit_lt (bits n : Nat) (value : Bool) (hn : n < 16) : setBit bits n value < 2 ^ 16 := by
  have hmask : (65535 : Nat) ^^^ (1 <<< n) < 2 ^ 16 := by
    refine Nat.xor_lt_two_pow (by norm_num) ?_
    rw [Nat.one_shiftLeft]
    exact Nat.pow_lt_pow_right (by norm_num) hn
  have hval : ((if value then 1 else 0) <<< n) < 2 ^ 16 := by
    cases value with
    | false => simp [Nat.two_pow_pos 16]
    | true =>
      rw [if_pos rfl, Nat.one_shiftLeft]
      exact Nat.pow_lt_pow_right (by norm_num) hn
  exact Nat.or_lt_two_pow (Nat.and_lt_two_pow bits hmask) hval

lemma testBit_setBit (bits n : Nat) (value : Bool) (hn : n < 16) (hb : bits < 2 ^ 16)
    (j : Nat) :
    (setBit bits n value).testBit j = if j = n then value else bits.testBit j := by
  by_cases hj : j < 16
  · have h65535 : (65535 : Nat) = 2 ^ 16 - 1 := by norm_num
    rw [setBit, Nat.testBit_or, Nat.testBit_and, Nat.testBit_xor, Nat.one_shiftLeft,
      h65535, Nat.testBit_two_pow_sub_one, Nat.testBit_two_pow]
    cases value with
    | false =>
      by_cases hjn : j = n
      · simp [hjn, hj, hn]
      · have hnj : ¬n = j := fun hh => hjn hh.symm
        simp [hjn, hj, hnj]
    | true =>
      rw [if_pos rfl, Nat.one_shiftLeft, Nat.testBit_two_pow]
      by_cases hjn : j = n
      · simp [hjn, hj]
      · have hnj : ¬n = j := fun hh => hjn hh.symm
        simp [hjn, hj, hnj]
  · have h16 : 2 ^ 16 ≤ 2 ^ j := Nat.pow_le_pow_right (by norm_num) (Nat.le_of_not_lt hj)
    have hout : (setBit bits n value).testBit j = false :=
      Nat.testBit_lt_two_pow (Nat.lt_of_lt_of_le (setBit_lt bits n value hn) h16)
    have hjn : j ≠ n := by omega
    rw [hout, if_neg hjn,
      Nat.testBit_lt_two_pow (Nat.lt_of_lt_of_le hb h16)]

lemma testBit_setBit_down_up (bits n : Nat) (hn : n < 16) (hb : bits < 2 ^ 16) (j : Nat) :
    (setBit (setBit bits n true) n false).testBit j
      = if j = n then false else bits.testBit j := by
  rw [testBit_setBit (setBit bits n true) n false hn (setBit_lt bits n true hn) j,
    testBit_setBit bits n true hn hb j]
  by_cases hjn : j = n <;> simp [hjn]

lemma runTriggers_eq (hs : List Nat) :
    ∀ s : SharedGameState, runTriggers s hs = List.zipWith triggerStep hs (s.key_old :: hs) := by
  induction hs with
  | nil => intro s; rfl
  | cons held rest ih =>
    intro s
    show triggerStep held s.key_old :: _ = _
    rw [List.zipWith]
    exact congrArg _ (ih _)

/-- Claim C1: with `key_old` initially 0, driving `update_key_trigger` over any
sequence of held-key words (one per frame) produces, at each call, the trigger word
`(held XOR previous_held) AND held`, where the previously held word of the first frame
is 0; in particular the held sequence `[0,1,1,0]` yields the trigger sequence
`[0,1,0,0]`. -/
theorem claim_C1_key_trigger_sequence (s : SharedGameState) (hs : List Nat)
    (h : s.key_old = 0) :
    runTriggers s hs = List.zipWith triggerStep hs (0 :: hs) ∧
    runTriggers s [0, 1, 1, 0] = [0, 1, 0, 0] := by
  constructor
  · rw [runTriggers_eq, h]
  · rw [runTriggers_eq, h]
    rfl

/-- Witness for C1 at the freshly constructed game state and the held sequence
`[0,1,1,0]` of the spec's rising-edge example. -/
theorem claim_C1_key_trigger_sequence_witness :
    witnessState.key_old = 0 ∧
    (runTriggers witnessState [0, 1, 1, 0]
        = List.zipWith triggerStep [0, 1, 1, 0] (0 :: [0, 1, 1, 0]) ∧
      runTriggers witnessState [0, 1, 1, 0] = [0, 1, 0, 0]) :=
  ⟨rfl, claim_C1_key_trigger_sequence witnessState [0, 1, 1, 0] rfl⟩

/-- Claim C2: after `tick_carets` no dead caret remains in the collection, and the
resulting collection is exactly the input collection with every caret ticked once and
the dead ones then removed. -/
theorem claim_C2_tick_carets_compaction (s : SharedGameState) :
    (s.tick_carets).carets.all (fun c => ! c.is_dead) = true ∧
    (s.tick_carets).carets
      = (s.carets.map (fun c => c.tick s.effect_rng s.constants)).filter
          (fun c => ! c.is_dead) := by
  refine ⟨?_, rfl⟩
  rw [List.all_eq_true]
  intro c hc
  exact List.of_mem_filter
    (l := s.carets.map (fun c => c.tick s.effect_rng s.constants))
    (p := fun c => ! c.is_dead) hc

/-- Claim C3: `Game::new` creates the flag bank with exactly 8000 flags (hence at least
8000), every one initialized to `false`. -/
theorem claim_C3_game_flags_init (csplus : Bool) (effect_seed : Int) (ui : UI)
    (screen_size : Float × Float) :
    (Game.new csplus effect_seed ui screen_size).state.game_flags.length = 8000 ∧
    8000 ≤ (Game.new csplus effect_seed ui screen_size).state.game_flags.length ∧
    (Game.new csplus effect_seed ui screen_size).state.game_flags.all
        (fun b => b == false) = true := by
  have hgf : (Game.new csplus effect_seed ui screen_size).state.game_flags
      = List.replicate 8000 false := rfl
  refine ⟨?_, ?_, ?_⟩
  · rw [hgf, List.length_replicate]
  · rw [hgf, List.length_replicate]
  · rw [hgf, List.all_eq_true]
    intro b hb
    simp [List.eq_of_mem_replicate hb]

/-- Claim C4: two successive calls of `update_key_trigger` with `key_state` unchanged
in between leave `key_trigger` zero after the second call: a held key triggers only on
its rising edge. -/
theorem claim_C4_trigger_rising_edge_only (s : SharedGameState) :
    ((s.update_key_trigger).update_key_trigger).key_trigger.bits = 0 := by
  simp [SharedGameState.update_key_trigger]

/-- Claim C5: after `update_key_trigger`, every bit set in `key_trigger` is also set in
`key_state`: AND-ing the trigger word with the held word leaves the trigger word
unchanged, and bitwise `trigger AND NOT held` is everywhere false. -/
theorem claim_C5_trigger_subset_of_held (s : SharedGameState) :
    (s.update_key_trigger).key_trigger.bits &&& (s.update_key_trigger).key_state.bits
        = (s.update_key_trigger).key_trigger.bits ∧
    ∀ i, ((s.update_key_trigger).key_trigger.bits.testBit i
          && !(s.update_key_trigger).key_state.bits.testBit i) = false := by
  constructor
  · show ((s.key_state.bits ^^^ s.key_old) &&& s.key_state.bits) &&& s.key_state.bits
        = (s.key_state.bits ^^^ s.key_old) &&& s.key_state.bits
    rw [Nat.and_assoc, Nat.and_self]
  · intro i
    show (((s.key_state.bits ^^^ s.key_old) &&& s.key_state.bits).testBit i
        && !s.key_state.bits.testBit i) = false
    rw [Nat.testBit_and]
    cases s.key_state.bits.testBit i <;> simp

/-- Claim C6: `create_caret` appends exactly one new caret built by `Caret::new` from
the given position, type, direction and the current constants — the collection grows by
one with all previous entries unchanged — and every other field of the shared state is
left untouched. -/
theorem claim_C6_create_caret_appends (s : SharedGameState) (x y : Int)
    (ctype : CaretType) (direct : Direction) :
    (s.create_caret x y ctype direct).carets
        = s.carets ++ [Caret.new x y ctype direct s.constants] ∧
    (s.create_caret x y ctype direct).carets.length = s.carets.length + 1 ∧
    (s.create_caret x y ctype direct).control_flags = s.control_flags ∧
    (s.create_caret x y ctype direct).game_flags = s.game_flags ∧
    (s.create_caret x y ctype direct).fade_state = s.fade_state ∧
    (s.create_caret x y ctype direct).game_rng = s.game_rng ∧
    (s.create_caret x y ctype direct).effect_rng = s.effect_rng ∧
    (s.create_caret x y ctype direct).key_state = s.key_state ∧
    (s.create_caret x y ctype direct).key_trigger = s.key_trigger ∧
    (s.create_caret x y ctype direct).texture_set = s.texture_set ∧
    (s.create_caret x y ctype direct).base_path = s.base_path ∧
    (s.create_caret x y ctype direct).stages = s.stages ∧
    (s.create_caret x y ctype direct).sound_manager = s.sound_manager ∧
    (s.create_caret x y ctype direct).constants = s.constants ∧
    (s.create_caret x y ctype direct).scale = s.scale ∧
    (s.create_caret x y ctype direct).canvas_size = s.canvas_size ∧
    (s.create_caret x y ctype direct).screen_size = s.screen_size ∧
    (s.create_caret x y ctype direct).next_scene = s.next_scene ∧
    (s.create_caret x y ctype direct).textscript_vm = s.textscript_vm ∧
    (s.create_caret x y ctype direct).key_old = s.key_old := by
  refine ⟨rfl, ?_, rfl, rfl, rfl, rfl, rfl, rfl, rfl, rfl, rfl, rfl, rfl, rfl, rfl,
    rfl, rfl, rfl, rfl, rfl⟩
  simp [SharedGameState.create_caret]

/-- Claim C7: any read or write of the flag bank at an index at or beyond its length
fails loudly (the panicking access is rendered as `none`) instead of touching
out-of-range storage. -/
theorem claim_C7_game_flags_bounds (s : SharedGameState) (i : Nat) (b : Bool)
    (h : s.game_flags.length ≤ i) :
    BitVec.get s.game_flags i = none ∧ BitVec.set s.game_flags i b = none := by
  constructor
  · exact List.getElem?_eq_none h
  · exact if_neg (Nat.not_lt.mpr h)

/-- Witness for C7: reading or writing flag 8000 of the freshly constructed 8000-flag
bank fails. -/
theorem claim_C7_game_flags_bounds_witness :
    witnessState.game_flags.length ≤ 8000 ∧
    (BitVec.get witnessState.game_flags 8000 = none ∧
      BitVec.set witnessState.game_flags 8000 true = none) :=
  ⟨by rw [show witnessState.game_flags = List.replicate 8000 false from rfl,
      List.length_replicate],
    claim_C7_game_flags_bounds witnessState 8000 true
      (by rw [show witnessState.game_flags = List.replicate 8000 false from rfl,
        List.length_replicate])⟩

/-- Claim C8: `update_key_trigger` never modifies `key_state`, stores the raw held word
into `key_old`, and leaves every field other than `key_trigger` and `key_old`
unchanged. -/
theorem claim_C8_update_key_trigger_frame_effect (s : SharedGameState) :
    (s.update_key_trigger).key_state = s.key_state ∧
    (s.update_key_trigger).key_old = s.key_state.bits ∧
    (s.update_key_trigger).control_flags = s.control_flags ∧
    (s.update_key_trigger).game_flags = s.game_flags ∧
    (s.update_key_trigger).fade_state = s.fade_state ∧
    (s.update_key_trigger).game_rng = s.game_rng ∧
    (s.update_key_trigger).effect_rng = s.effect_rng ∧
    (s.update_key_trigger).carets = s.carets ∧
    (s.update_key_trigger).texture_set = s.texture_set ∧
    (s.update_key_trigger).base_path = s.base_path ∧
    (s.update_key_trigger).stages = s.stages ∧
    (s.update_key_trigger).sound_manager = s.sound_manager ∧
    (s.update_key_trigger).constants = s.constants ∧
    (s.update_key_trigger).scale = s.scale ∧
    (s.update_key_trigger).canvas_size = s.canvas_size ∧
    (s.update_key_trigger).screen_size = s.screen_size ∧
    (s.update_key_trigger).next_scene = s.next_scene ∧
    (s.update_key_trigger).textscript_vm = s.textscript_vm :=
  ⟨rfl, rfl, rfl, rfl, rfl, rfl, rfl, rfl, rfl, rfl, rfl, rfl, rfl, rfl, rfl, rfl,
    rfl, rfl⟩

/-- Claim C9: a key-down event with `repeat == true` leaves the whole game value —
scene, shared state (including `key_state`), UI and matrices — unchanged. -/
theorem claim_C9_key_repeat_ignored (g : Game) (key_code : KeyCode)
    (key_mod : KeyMods) :
    Game.key_down_event g key_code key_mod true = g := rfl

/-- Claim C10: for each of the eight mapped key codes, `key_down_event` (with
`repeat == false`) sets exactly that key's bit, `key_up_event` clears exactly that
key's bit, and a down followed by an up for the same key restores `key_state` to its
original value with that bit cleared; unmapped key codes leave `key_state` unchanged in
both handlers. -/
theorem claim_C10_key_event_bits (g : Game) (key_code : KeyCode) (key_mod : KeyMods)
    (h : g.state.key_state.bits < 2 ^ 16) : keyEventSpec g key_code key_mod := by
  cases key_code <;>
    first
    | exact ⟨rfl, rfl⟩
    | exact ⟨fun j => testBit_setBit _ _ true (by norm_num) h j,
        fun j => testBit_setBit _ _ false (by norm_num) h j,
        fun j => testBit_setBit_down_up _ _ (by norm_num) h j⟩

/-- Witness for C10 at the freshly constructed game and the `Left` key code. -/
theorem claim_C10_key_event_bits_witness :
    witnessGame.state.key_state.bits < 2 ^ 16 ∧
    keyEventSpec witnessGame KeyCode.Left ⟨0⟩ :=
  ⟨by rw [show witnessGame.state.key_state.bits = 0 from rfl]; norm_num,
    claim_C10_key_event_bits witnessGame KeyCode.Left ⟨0⟩
      (by rw [show witnessGame.state.key_state.bits = 0 from rfl]; norm_num)⟩

end DoukutsuRs
